import Mathlib

/-!
Verification of the Qt6-Redux-Store state-management core.

The embedding follows the C++ source directly:
  - `SidebarState`, `UserProfileState`, `AppState` mirror the structs in
    `src/State.h`, including the member default values.
  - `ActionType`, `ActionPayload`, `Action` mirror the action model in
    `src/State.h` (`ActionPayload` is the
    `std::variant<std::monostate, std::string, bool, int>`).
  - `reduce` mirrors `Store::reduce` in `src/Store.cpp`: the `switch` on
    `action.type`, with the `std::get_if<std::string>` guard on the
    `SidebarChangeActivePage` branch.
  - `Store` models the singleton's observable state: the owned `m_state`
    plus a log of `stateChanged` emissions, each emission recorded together
    with the value of `m_state` at the moment it was emitted.  `dispatch`
    mirrors `Store::dispatch`: reduce first, then emit exactly once.
  - `getState` returns the current `m_state` and, being `const`, leaves
    the store untouched; it is modelled as returning the pair
    (read value, store after the call).
-/

namespace ReduxStore

/-- Mirrors `SidebarState` in src/State.h. -/
structure SidebarState where
  activePage : String
  headerComponent : String
deriving DecidableEq

/-- Member defaults of `SidebarState` in src/State.h. -/
def SidebarState.default : SidebarState :=
  { activePage := "chatList", headerComponent := "ChatHeader" }

/-- Mirrors `UserProfileState` in src/State.h. -/
structure UserProfileState where
  visible : Bool
  activePage : String
deriving DecidableEq

/-- Member defaults of `UserProfileState` in src/State.h. -/
def UserProfileState.default : UserProfileState :=
  { visible := false, activePage := "UserProfile" }

/-- Mirrors `AppState` in src/State.h: the aggregate of the two slices. -/
structure AppState where
  sidebar : SidebarState
  userProfile : UserProfileState
deriving DecidableEq

/-- Default-constructed `AppState`: both slices take their member defaults. -/
def AppState.default : AppState :=
  { sidebar := SidebarState.default, userProfile := UserProfileState.default }

/-- Mirrors `enum class ActionType` in src/State.h. -/
inductive ActionType where
  | SidebarChangeActivePage
  | UserProfileShow
  | UserProfileHide
deriving DecidableEq

/-- Mirrors `ActionPayload = std::variant<std::monostate, std::string, bool, int>`
in src/State.h. -/
inductive ActionPayload where
  | monostate
  | str (s : String)
  | boolean (b : Bool)
  | intval (n : Int)
deriving DecidableEq

/-- Mirrors `struct Action` in src/State.h; the payload defaults to
`std::monostate{}`. -/
structure Action where
  type : ActionType
  payload : ActionPayload := ActionPayload.monostate
deriving DecidableEq

/-- Mirrors `Store::reduce` in src/Store.cpp.  The reference implementation
mutates `m_state` in place; here it is written as the pure function state
transformer that mutation realises.  The `SidebarChangeActivePage` case
assigns only when `std::get_if<std::string>` succeeds, i.e. when the variant
currently holds a string. -/
def reduce (state : AppState) (action : Action) : AppState :=
  match action.type with
  | ActionType.SidebarChangeActivePage =>
    match action.payload with
    | ActionPayload.str pageName =>
      { state with sidebar := { state.sidebar with activePage := pageName } }
    | _ => state
  | ActionType.UserProfileShow =>
    { state with userProfile := { state.userProfile with visible := true } }
  | ActionType.UserProfileHide =>
    { state with userProfile := { state.userProfile with visible := false } }

/-- Observable state of the `Store` singleton: the owned `m_state`, together
with the log of `stateChanged` emissions.  Each log entry records the value
of `m_state` at the instant the signal was emitted, so ordering facts
("emitted after the reduction was applied") are visible in the model. -/
structure Store where
  m_state : AppState
  emissions : List AppState
deriving DecidableEq

/-- A freshly created `Store`: the private constructor `Store::Store` only
forwards to `QObject`, so `m_state` is default-constructed per src/State.h,
and no signal has been emitted yet. -/
def Store.init : Store :=
  { m_state := AppState.default, emissions := [] }

/-- Mirrors `Store::dispatch` in src/Store.cpp: first `reduce(action)`
updates `m_state`, then `emit stateChanged()` fires exactly once, observing
the already-reduced state. -/
def Store.dispatch (store : Store) (action : Action) : Store :=
  let reduced := reduce store.m_state action
  { m_state := reduced, emissions := store.emissions ++ [reduced] }

/-- Mirrors `const AppState& Store::getState() const` in src/Store.cpp: it
returns `m_state` and, being a `const` member returning a const reference,
leaves the store exactly as it was.  Modelled as (value read, store after
the call). -/
def Store.getState (store : Store) : AppState × Store :=
  (store.m_state, store)

/-- Dispatching a whole list of actions in order, starting from a given
store; used to state trace invariants. -/
def Store.dispatchAll (store : Store) (actions : List Action) : Store :=
  actions.foldl Store.dispatch store

/-- Helper: `reduce` never writes `sidebar.headerComponent`. -/
theorem reduce_headerComponent (state : AppState) (action : Action) :
    (reduce state action).sidebar.headerComponent =
      state.sidebar.headerComponent := by
  unfold reduce
  cases action.type <;> cases action.payload <;> rfl

/-- Helper: `reduce` never writes `userProfile.activePage`. -/
theorem reduce_userProfile_activePage (state : AppState) (action : Action) :
    (reduce state action).userProfile.activePage =
      state.userProfile.activePage := by
  unfold reduce
  cases action.type <;> cases action.payload <;> rfl

/-- Helper: `dispatchAll` preserves both never-written fields. -/
theorem dispatchAll_preserves (actions : List Action) (store : Store) :
    (Store.dispatchAll store actions).m_state.sidebar.headerComponent =
        store.m_state.sidebar.headerComponent ∧
      (Store.dispatchAll store actions).m_state.userProfile.activePage =
        store.m_state.userProfile.activePage := by
  induction actions generalizing store with
  | nil => exact ⟨rfl, rfl⟩
  | cons a rest ih =>
    have h := ih (store.dispatch a)
    refine ⟨?_, ?_⟩
    · calc (Store.dispatchAll store (a :: rest)).m_state.sidebar.headerComponent
          = (store.dispatch a).m_state.sidebar.headerComponent := h.1
        _ = store.m_state.sidebar.headerComponent :=
            reduce_headerComponent store.m_state a
    · calc (Store.dispatchAll store (a :: rest)).m_state.userProfile.activePage
          = (store.dispatch a).m_state.userProfile.activePage := h.2
        _ = store.m_state.userProfile.activePage :=
            reduce_userProfile_activePage store.m_state a

/-- C1: for every state and every string `s`, reducing an action of type
`SidebarChangeActivePage` with string payload `s` sets `sidebar.activePage`
to `s` and leaves the `userProfile` slice entirely unchanged; in particular
with payload `"filesSidebar"` the field becomes `"filesSidebar"`. -/
theorem C1_sidebar_change_targets_only_sidebar (state : AppState) (s : String) :
    (reduce state ⟨ActionType.SidebarChangeActivePage, ActionPayload.str s⟩).sidebar.activePage = s ∧
      (reduce state ⟨ActionType.SidebarChangeActivePage, ActionPayload.str s⟩).userProfile = state.userProfile ∧
      (reduce state ⟨ActionType.SidebarChangeActivePage, ActionPayload.str "filesSidebar"⟩).sidebar.activePage = "filesSidebar" := by
  exact ⟨rfl, rfl, rfl⟩

/-- C2: a freshly created Store, before any dispatch, reads back a fully
populated `AppState` with the documented member defaults. -/
theorem C2_initial_state :
    (Store.init.getState).1.sidebar.activePage = "chatList" ∧
      (Store.init.getState).1.sidebar.headerComponent = "ChatHeader" ∧
      (Store.init.getState).1.userProfile.visible = false ∧
      (Store.init.getState).1.userProfile.activePage = "UserProfile" := by
  exact ⟨rfl, rfl, rfl, rfl⟩

/-- C3: a `SidebarChangeActivePage` action whose payload is not a string
(absent, boolean, or integer) leaves the whole state unchanged; in
particular the boolean payload `true` is a no-op. -/
theorem C3_malformed_payload_noop (state : AppState) (b : Bool) (n : Int) :
    reduce state ⟨ActionType.SidebarChangeActivePage, ActionPayload.monostate⟩ = state ∧
      reduce state ⟨ActionType.SidebarChangeActivePage, ActionPayload.boolean b⟩ = state ∧
      reduce state ⟨ActionType.SidebarChangeActivePage, ActionPayload.intval n⟩ = state ∧
      reduce state ⟨ActionType.SidebarChangeActivePage, ActionPayload.boolean true⟩ = state := by
  exact ⟨rfl, rfl, rfl, rfl⟩

/-- C4: for every payload whatsoever, `UserProfileShow` sets
`userProfile.visible` to `true` and `UserProfileHide` sets it to `false`,
and neither action touches any other field (the sidebar slice and
`userProfile.activePage` are unchanged). -/
theorem C4_show_hide_ignore_payload (state : AppState) (p : ActionPayload) :
    (reduce state ⟨ActionType.UserProfileShow, p⟩).userProfile.visible = true ∧
      (reduce state ⟨ActionType.UserProfileHide, p⟩).userProfile.visible = false ∧
      (reduce state ⟨ActionType.UserProfileShow, p⟩).sidebar = state.sidebar ∧
      (reduce state ⟨ActionType.UserProfileShow, p⟩).userProfile.activePage = state.userProfile.activePage ∧
      (reduce state ⟨ActionType.UserProfileHide, p⟩).sidebar = state.sidebar ∧
      (reduce state ⟨ActionType.UserProfileHide, p⟩).userProfile.activePage = state.userProfile.activePage := by
  exact ⟨rfl, rfl, rfl, rfl, rfl, rfl⟩

/-- C5: every dispatch, for every action, emits `stateChanged` exactly once
(the emission log grows by precisely one entry), and the emission happens
after the reduction: the state observed at emission time is the reduced
state, which is also the store's state when dispatch returns. -/
theorem C5_dispatch_emits_exactly_once (store : Store) (action : Action) :
    (store.dispatch action).emissions =
        store.emissions ++ [reduce store.m_state action] ∧
      (store.dispatch action).emissions.length = store.emissions.length + 1 ∧
      (store.dispatch action).m_state = reduce store.m_state action := by
  refine ⟨rfl, ?_, rfl⟩
  simp [Store.dispatch]

/-- C6: `UserProfileShow` is idempotent on the state: after one dispatch
`userProfile.visible` is `true`, it stays `true` after a second, and the
state after the second reduction equals the state after the first. -/
theorem C6_show_idempotent (state : AppState) :
    (reduce state ⟨ActionType.UserProfileShow, ActionPayload.monostate⟩).userProfile.visible = true ∧
      (reduce (reduce state ⟨ActionType.UserProfileShow, ActionPayload.monostate⟩)
          ⟨ActionType.UserProfileShow, ActionPayload.monostate⟩).userProfile.visible = true ∧
      reduce (reduce state ⟨ActionType.UserProfileShow, ActionPayload.monostate⟩)
          ⟨ActionType.UserProfileShow, ActionPayload.monostate⟩ =
        reduce state ⟨ActionType.UserProfileShow, ActionPayload.monostate⟩ := by
  exact ⟨rfl, rfl, rfl⟩

/-- C7: `getState` is a pure read: two consecutive calls with no intervening
dispatch return equal values, and the call leaves the store unchanged. -/
theorem C7_getState_pure (store : Store) :
    (store.getState).1 = ((store.getState).2.getState).1 ∧
      (store.getState).2 = store := by
  exact ⟨rfl, rfl⟩

/-- C8: the reducer is deterministic and depends only on its two inputs:
equal current states and equal actions yield equal next states. -/
theorem C8_reduce_deterministic (s₁ s₂ : AppState) (a₁ a₂ : Action)
    (hs : s₁ = s₂) (ha : a₁ = a₂) :
    reduce s₁ a₁ = reduce s₂ a₂ := by
  rw [hs, ha]

/-- Witness for C8 at concrete inputs. -/
theorem C8_reduce_deterministic_witness :
    reduce AppState.default ⟨ActionType.UserProfileShow, ActionPayload.monostate⟩ =
      reduce AppState.default ⟨ActionType.UserProfileShow, ActionPayload.monostate⟩ :=
  C8_reduce_deterministic AppState.default AppState.default
    ⟨ActionType.UserProfileShow, ActionPayload.monostate⟩
    ⟨ActionType.UserProfileShow, ActionPayload.monostate⟩ rfl rfl

/-- C9: after any finite sequence of dispatched actions starting from a
fresh store, `sidebar.headerComponent` is still `"ChatHeader"` and
`userProfile.activePage` is still `"UserProfile"`: no action ever writes
either field. -/
theorem C9_dead_fields_keep_defaults (actions : List Action) :
    (Store.dispatchAll Store.init actions).m_state.sidebar.headerComponent = "ChatHeader" ∧
      (Store.dispatchAll Store.init actions).m_state.userProfile.activePage = "UserProfile" := by
  have h := dispatchAll_preserves actions Store.init
  exact ⟨h.1, h.2⟩

/-- C10: actions targeting disjoint slices commute: for every starting
state, every string `s` and every payload, a `SidebarChangeActivePage s`
reduction commutes with a `UserProfileShow` reduction and with a
`UserProfileHide` reduction. -/
theorem C10_disjoint_slices_commute (state : AppState) (s : String) (p : ActionPayload) :
    reduce (reduce state ⟨ActionType.SidebarChangeActivePage, ActionPayload.str s⟩)
        ⟨ActionType.UserProfileShow, p⟩ =
      reduce (reduce state ⟨ActionType.UserProfileShow, p⟩)
        ⟨ActionType.SidebarChangeActivePage, ActionPayload.str s⟩ ∧
    reduce (reduce state ⟨ActionType.SidebarChangeActivePage, ActionPayload.str s⟩)
        ⟨ActionType.UserProfileHide, p⟩ =
      reduce (reduce state ⟨ActionType.UserProfileHide, p⟩)
        ⟨ActionType.SidebarChangeActivePage, ActionPayload.str s⟩ := by
  exact ⟨rfl, rfl⟩

end ReduxStore
